import Mathlib

/-!
Verification of the dashboard widget renderer.

The development shallowly embeds the two source files of the repository:
the WidgetRenderer component (scale-factor selection, metric extraction,
delete handling, and the component-type dispatch) and the responsive
utility helpers in responsiveUtils.ts.  Widths and metric values are
modelled as rationals, JS strings as Lean strings, and nullable or
optional JS values as Option.
-/

namespace Dashboard

/-- Scale-factor step function, from getScaleFactor in the renderer:
width below 150 gives 0.6, below 200 gives 0.75, below 300 gives 0.9,
below 400 gives 1, and 1.2 otherwise. -/
def getScaleFactor (containerWidth : ℚ) : ℚ :=
  if containerWidth < 150 then 6/10
  else if containerWidth < 200 then 75/100
  else if containerWidth < 300 then 9/10
  else if containerWidth < 400 then 1
  else 12/10

/-- Responsive font size from responsiveUtils.ts, modelled as the numeric
pixel value of the returned CSS string (the source appends a px suffix to
exactly this number). -/
def getResponsiveFontSize (width : ℚ) (baseSize : ℚ) : ℚ :=
  if width < 150 then max 12 (baseSize * (6/10))
  else if width < 200 then max 14 (baseSize * (75/100))
  else if width < 300 then max 16 (baseSize * (9/10))
  else if width < 400 then baseSize
  else min (baseSize * (12/10)) 48

/-- Responsive padding helper from responsiveUtils.ts. -/
def getResponsivePadding (width : ℚ) : ℚ :=
  if width < 150 then 8
  else if width < 250 then 12
  else 16

/-- Responsive gap helper from responsiveUtils.ts. -/
def getResponsiveGap (width : ℚ) : ℚ :=
  if width < 150 then 8
  else if width < 250 then 12
  else 16

/-- The inline padding expression of the MetricsCard branches of the
renderer (identical on the last-refresh and metric sub-branches):
containerWidth below 150 gives 8, below 250 gives 12, else 16. -/
def metricsCardInlinePadding (containerWidth : ℚ) : ℚ :=
  if containerWidth < 150 then 8
  else if containerWidth < 250 then 12
  else 16

/-- The inline gap expression of the MetricsCard branches of the
renderer (identical on the last-refresh and metric sub-branches):
containerWidth below 150 gives 8, below 250 gives 10, else 12. -/
def metricsCardInlineGap (containerWidth : ℚ) : ℚ :=
  if containerWidth < 150 then 8
  else if containerWidth < 250 then 10
  else 12

/-- A sample of hierarchy-level chart data: aggregated oil, water and gas
flow rates.  Each field is optional because the API record may omit it. -/
structure HierarchySample where
  totalOfr : Option ℚ
  totalWfr : Option ℚ
  totalGfr : Option ℚ
  deriving Repr, DecidableEq

/-- A sample of device-level chart data: oil, water and gas flow rates.
Each field is optional because the API record may omit it. -/
structure DeviceSample where
  ofr : Option ℚ
  wfr : Option ℚ
  gfr : Option ℚ
  deriving Repr, DecidableEq

/-- Hierarchy chart data: a time-ordered list of samples. -/
structure HierarchyChartData where
  chartData : List HierarchySample
  deriving Repr, DecidableEq

/-- Device chart data: a time-ordered list of samples. -/
structure DeviceChartData where
  chartData : List DeviceSample
  deriving Repr, DecidableEq

/-- JS expression x or-else 0 on an optional numeric field: an absent
field is falsy and yields the default 0, and a present value v yields v
(a present 0 is falsy in JS but the default is 0 as well). -/
def jsOrZero (x : Option ℚ) : ℚ := x.getD 0

/-- The hierarchy-branch switch of getMetricValue: picks the aggregated
field named by the metric string from the latest sample, defaulting each
absent field to 0, and leaves the initial value 0 when no case matches. -/
def hierSwitch (metric : Option String) (latest : HierarchySample) : ℚ :=
  if metric = some "ofr" then jsOrZero latest.totalOfr
  else if metric = some "wfr" then jsOrZero latest.totalWfr
  else if metric = some "gfr" then jsOrZero latest.totalGfr
  else 0

/-- The device-branch switch of getMetricValue: picks the field named by
the metric string from the latest sample, defaulting each absent field to
0, and leaves the initial value 0 when no case matches. -/
def deviceSwitch (metric : Option String) (latest : DeviceSample) : ℚ :=
  if metric = some "ofr" then jsOrZero latest.ofr
  else if metric = some "wfr" then jsOrZero latest.wfr
  else if metric = some "gfr" then jsOrZero latest.gfr
  else 0

/-- getMetricValue from the renderer.  The value starts at 0; when the
hierarchy chart data is present and non-empty its latest sample is read
through the hierarchy switch, otherwise when the device chart data is
present and non-empty its latest sample is read through the device
switch, otherwise the initial 0 is returned.  The metric argument is an
optional string because dsConfig.metric may be absent. -/
def getMetricValue (metric : Option String) (hierarchyChartData : Option HierarchyChartData)
    (chartData : Option DeviceChartData) : ℚ :=
  match hierarchyChartData.elim none (fun h => h.chartData.getLast?) with
  | some latest => hierSwitch metric latest
  | none =>
    match chartData.elim none (fun c => c.chartData.getLast?) with
    | some latest => deviceSwitch metric latest
    | none => 0

/-- JS string truthiness: null or undefined and the empty string are
falsy, every other string is truthy. -/
def jsTruthy (s : Option String) : Bool :=
  match s with
  | none => false
  | some v => v ≠ ""

/-- JS expression s or-else d on an optional string: an absent or empty
(falsy) string yields the default d, otherwise the string itself. -/
def jsOrStr (s : Option String) (d : String) : String :=
  match s with
  | none => d
  | some v => if v = "" then d else v

/-- The data-source configuration blob read by the MetricsCard branch of
the renderer; every field is optional because the blob is untyped. -/
structure DataSourceConfig where
  metric : Option String
  title : Option String
  unit : Option String
  deriving Repr, DecidableEq

/-- The empty data-source configuration, used when
widget.dataSourceConfig is absent (dsConfig or-else empty object). -/
def DataSourceConfig.empty : DataSourceConfig :=
  { metric := none, title := none, unit := none }

/-- Widget configuration, restricted to the fields the renderer reads. -/
structure WidgetConfig where
  layoutId : String
  name : String
  component : String
  dataSourceConfig : Option DataSourceConfig
  deriving Repr, DecidableEq

/-- handleDelete from the renderer, as the callback effect it produces:
some layoutId when the external onDelete callback is invoked with that
id, none when it is not invoked.  It returns early when onDelete is not
provided or when the auth token is falsy, then returns early when the
confirmation dialog is declined, and only then invokes onDelete with
widget.layoutId. -/
def handleDelete (onDeleteProvided : Bool) (token : Option String)
    (confirmResult : Bool) (widget : WidgetConfig) : Option String :=
  if !onDeleteProvided || !jsTruthy token then none
  else if !confirmResult then none
  else some widget.layoutId

/-- JS Number.toFixed 2 on a rational: the value rounded to two decimal
places (half away from zero) and printed with exactly two fraction
digits.  The rounded numerator is the floor of the absolute value times
100 plus one half, computed on the numerator and denominator with
natural division. -/
def toFixed2 (q : ℚ) : String :=
  let sign := if q < 0 then "-" else ""
  let n : ℕ := (200 * q.num.natAbs + q.den) / (2 * q.den)
  let whole := n / 100
  let frac := n % 100
  sign ++ toString whole ++ "." ++
    (if frac < 10 then "0" ++ toString frac else toString frac)

/-- The rendered output of WidgetRenderer, one constructor per return
branch of the dispatch switch.  The metricsCard constructor records the
formatted value, the displayed title and the displayed unit; the
fallback constructor records the caption and the echoed component
string. -/
inductive Rendered where
  | customLineChart : Rendered
  | metricsCardLastRefresh (formattedTime : Option String) : Rendered
  | metricsCard (value : String) (title : String) (unit : String) : Rendered
  | gvfwlrChart : Rendered
  | productionMap : Rendered
  | unknown (caption : String) (component : String) : Rendered
  deriving Repr, DecidableEq

/-- WidgetRenderer dispatch on widget.component.  dsConfig is
widget.dataSourceConfig or-else the empty blob.  The MetricsCard branch
splits on whether dsConfig.metric is the string last_refresh; otherwise
it formats getMetricValue with toFixed 2 and applies the Metric and
l/min defaults.  Unrecognized component strings reach the default
branch, which echoes the component string under the caption Unknown
widget type. -/
def WidgetRenderer (widget : WidgetConfig) (chartData : Option DeviceChartData)
    (hierarchyChartData : Option HierarchyChartData)
    (lastRefresh : Option String) : Rendered :=
  let dsConfig := widget.dataSourceConfig.getD DataSourceConfig.empty
  if widget.component = "CustomLineChart" then
    Rendered.customLineChart
  else if widget.component = "MetricsCard" then
    if dsConfig.metric = some "last_refresh" then
      Rendered.metricsCardLastRefresh lastRefresh
    else
      Rendered.metricsCard
        (toFixed2 (getMetricValue dsConfig.metric hierarchyChartData chartData))
        (jsOrStr dsConfig.title "Metric")
        (jsOrStr dsConfig.unit "l/min")
  else if widget.component = "GVFWLRChart" then
    Rendered.gvfwlrChart
  else if widget.component = "ProductionMap" then
    Rendered.productionMap
  else
    Rendered.unknown "Unknown widget type:" widget.component

lemma getMetricValue_unrecognized (metric : Option String)
    (hd : Option HierarchyChartData) (cd : Option DeviceChartData)
    (h1 : metric ≠ some "ofr") (h2 : metric ≠ some "wfr") (h3 : metric ≠ some "gfr") :
    getMetricValue metric hd cd = 0 := by
  unfold getMetricValue
  split
  · simp [hierSwitch, h1, h2, h3]
  · split
    · simp [deviceSwitch, h1, h2, h3]
    · rfl

lemma toFixed2_zero : toFixed2 0 = "0.00" := by
  rfl

/-- C1: getScaleFactor maps every container width to exactly the fixed
step function: 0.6 below 150, 0.75 on 150 to 200, 0.9 on 200 to 300, 1
on 300 to 400, 1.2 at 400 and above; in particular the result is always
one of the five tier values. -/
theorem C1_getScaleFactor_table (w : ℚ) :
    (w < 150 → getScaleFactor w = 6/10) ∧
    (150 ≤ w → w < 200 → getScaleFactor w = 75/100) ∧
    (200 ≤ w → w < 300 → getScaleFactor w = 9/10) ∧
    (300 ≤ w → w < 400 → getScaleFactor w = 1) ∧
    (400 ≤ w → getScaleFactor w = 12/10) ∧
    (getScaleFactor w = 6/10 ∨ getScaleFactor w = 75/100 ∨ getScaleFactor w = 9/10 ∨
      getScaleFactor w = 1 ∨ getScaleFactor w = 12/10) := by
  unfold getScaleFactor
  split_ifs <;>
    refine ⟨?_, ?_, ?_, ?_, ?_, ?_⟩ <;> first | tauto | (intros; linarith)

/-- Witness for C1 at one concrete width in each tier. -/
theorem C1_witness :
    getScaleFactor 100 = 6/10 ∧ getScaleFactor 160 = 75/100 ∧
    getScaleFactor 250 = 9/10 ∧ getScaleFactor 350 = 1 ∧ getScaleFactor 450 = 12/10 :=
  ⟨(C1_getScaleFactor_table 100).1 (by norm_num),
   (C1_getScaleFactor_table 160).2.1 (by norm_num) (by norm_num),
   (C1_getScaleFactor_table 250).2.2.1 (by norm_num) (by norm_num),
   (C1_getScaleFactor_table 350).2.2.2.1 (by norm_num) (by norm_num),
   (C1_getScaleFactor_table 450).2.2.2.2.1 (by norm_num)⟩

/-- C2: every widget whose component string is none of CustomLineChart,
MetricsCard, GVFWLRChart and ProductionMap reaches the default branch,
which renders the caption Unknown widget type together with the
unrecognized component string. -/
theorem C2_unknown_fallback (widget : WidgetConfig) (cd : Option DeviceChartData)
    (hd : Option HierarchyChartData) (lr : Option String)
    (h1 : widget.component ≠ "CustomLineChart") (h2 : widget.component ≠ "MetricsCard")
    (h3 : widget.component ≠ "GVFWLRChart") (h4 : widget.component ≠ "ProductionMap") :
    WidgetRenderer widget cd hd lr =
      Rendered.unknown "Unknown widget type:" widget.component := by
  unfold WidgetRenderer
  simp [h1, h2, h3, h4]

/-- Witness for C2 at an unrecognized component string. -/
theorem C2_witness :
    WidgetRenderer ⟨"L1", "w", "Foo", none⟩ none none none =
      Rendered.unknown "Unknown widget type:" "Foo" :=
  C2_unknown_fallback ⟨"L1", "w", "Foo", none⟩ none none none
    (by decide) (by decide) (by decide) (by decide)

/-- C3: the breakpoint-to-scale-factor mapping is monotonic in width. -/
theorem C3_getScaleFactor_monotone (w1 w2 : ℚ) (h : w1 ≤ w2) :
    getScaleFactor w1 ≤ getScaleFactor w2 := by
  unfold getScaleFactor
  split_ifs <;> linarith

/-- Witness for C3 at concrete widths. -/
theorem C3_witness : getScaleFactor 100 ≤ getScaleFactor 500 :=
  C3_getScaleFactor_monotone 100 500 (by norm_num)

/-- C4 counterexample: the responsive font size is not monotonic in
width for every base size.  At base size 10 the 200-to-300 tier clamps
up to 16 pixels while the 300-to-400 tier returns the base 10; at base
size 60 the 300-to-400 tier returns 60 while the top tier caps at 48. -/
theorem C4_counterexample :
    ((250 : ℚ) ≤ 350 ∧ getResponsiveFontSize 350 10 < getResponsiveFontSize 250 10) ∧
    ((350 : ℚ) ≤ 450 ∧ getResponsiveFontSize 450 60 < getResponsiveFontSize 350 60) := by
  norm_num [getResponsiveFontSize]

/-- C4 amended: for every base size between 16 and 48 (which includes
the default base size 16), the responsive font size is monotonic in
width. -/
theorem C4_fontSize_monotone (b : ℚ) (hb1 : 16 ≤ b) (hb2 : b ≤ 48)
    (w1 w2 : ℚ) (h : w1 ≤ w2) :
    getResponsiveFontSize w1 b ≤ getResponsiveFontSize w2 b := by
  have h12 : max 12 (b * (6/10)) ≤ max 14 (b * (75/100)) :=
    max_le_max (by norm_num) (by linarith)
  have h23 : max 14 (b * (75/100)) ≤ max 16 (b * (9/10)) :=
    max_le_max (by norm_num) (by linarith)
  have h34 : max 16 (b * (9/10)) ≤ b := max_le hb1 (by linarith)
  have h45 : b ≤ min (b * (12/10)) 48 := le_min (by linarith) hb2
  unfold getResponsiveFontSize
  split_ifs <;> linarith

/-- Witness for the amended C4 at the default base size 16. -/
theorem C4_witness : getResponsiveFontSize 100 16 ≤ getResponsiveFontSize 500 16 :=
  C4_fontSize_monotone 16 (by norm_num) (by norm_num) 100 500 (by norm_num)

/-- C5: last sample wins.  On a non-empty consulted sequence the value
depends only on the last sample: replacing all earlier samples leaves
the result unchanged, on the hierarchy branch and on the device
branch alike. -/
theorem C5_last_sample_wins (metric : Option String)
    (pre1 pre2 : List HierarchySample) (s : HierarchySample) (c : Option DeviceChartData)
    (qre1 qre2 : List DeviceSample) (d : DeviceSample) :
    getMetricValue metric (some ⟨pre1 ++ [s]⟩) c =
      getMetricValue metric (some ⟨pre2 ++ [s]⟩) c ∧
    getMetricValue metric none (some ⟨qre1 ++ [d]⟩) =
      getMetricValue metric none (some ⟨qre2 ++ [d]⟩) := by
  simp [getMetricValue, List.getLast?_concat]

/-- C6 counterexample: with the onDelete callback provided and the
confirmation accepted but no auth token, handleDelete does not invoke
the callback, contradicting the claimed if-and-only-if. -/
theorem C6_counterexample :
    handleDelete true none true ⟨"L1", "w", "MetricsCard", none⟩ ≠
      some (WidgetConfig.layoutId ⟨"L1", "w", "MetricsCard", none⟩) := by
  decide

/-- C6 amended: handleDelete invokes onDelete with widget.layoutId if
and only if the callback is provided, the auth token is truthy, and the
user confirms; when the confirmation is declined it is never invoked. -/
theorem C6_handleDelete_iff (onDeleteProvided : Bool) (token : Option String)
    (confirmResult : Bool) (widget : WidgetConfig) :
    (handleDelete onDeleteProvided token confirmResult widget = some widget.layoutId ↔
      onDeleteProvided = true ∧ jsTruthy token = true ∧ confirmResult = true) ∧
    handleDelete onDeleteProvided token false widget = none := by
  cases ht : jsTruthy token <;> cases onDeleteProvided <;> cases confirmResult <;>
    simp [handleDelete, ht]

/-- C7: metric formatting defaults.  A MetricsCard widget with an absent
or empty data-source blob renders value 0.00, title Metric and unit
l/min; getMetricValue returns 0 when both chart-data sources are absent
or empty, when the latest sample omits the selected field, and when the
metric string is unrecognized. -/
theorem C7_metric_defaults :
    (∀ (widget : WidgetConfig) (cd : Option DeviceChartData)
        (hd : Option HierarchyChartData) (lr : Option String),
        widget.component = "MetricsCard" →
        (widget.dataSourceConfig = none ∨
          widget.dataSourceConfig = some DataSourceConfig.empty) →
        WidgetRenderer widget cd hd lr = Rendered.metricsCard "0.00" "Metric" "l/min") ∧
    toFixed2 0 = "0.00" ∧
    (∀ metric, getMetricValue metric none none = 0) ∧
    (∀ metric, getMetricValue metric (some ⟨[]⟩) (some ⟨[]⟩) = 0) ∧
    (∀ (pre : List HierarchySample) (a b : Option ℚ) (c : Option DeviceChartData),
        getMetricValue (some "ofr") (some ⟨pre ++ [⟨none, a, b⟩]⟩) c = 0 ∧
        getMetricValue (some "wfr") (some ⟨pre ++ [⟨a, none, b⟩]⟩) c = 0 ∧
        getMetricValue (some "gfr") (some ⟨pre ++ [⟨a, b, none⟩]⟩) c = 0) ∧
    (∀ (qre : List DeviceSample) (a b : Option ℚ),
        getMetricValue (some "ofr") none (some ⟨qre ++ [⟨none, a, b⟩]⟩) = 0 ∧
        getMetricValue (some "wfr") none (some ⟨qre ++ [⟨a, none, b⟩]⟩) = 0 ∧
        getMetricValue (some "gfr") none (some ⟨qre ++ [⟨a, b, none⟩]⟩) = 0) ∧
    (∀ (metric : Option String) (hd : Option HierarchyChartData)
        (cd : Option DeviceChartData),
        metric ≠ some "ofr" → metric ≠ some "wfr" → metric ≠ some "gfr" →
        getMetricValue metric hd cd = 0) := by
  refine ⟨?_, toFixed2_zero, ?_, ?_, ?_, ?_, ?_⟩
  · intro widget cd hd lr hcomp hds
    have hval : getMetricValue none hd cd = 0 :=
      getMetricValue_unrecognized none hd cd (by simp) (by simp) (by simp)
    rcases hds with h | h <;>
      simp [WidgetRenderer, hcomp, h, DataSourceConfig.empty, hval, toFixed2_zero, jsOrStr]
  · intro metric; rfl
  · intro metric; rfl
  · intro pre a b c
    refine ⟨?_, ?_, ?_⟩ <;>
      simp [getMetricValue, List.getLast?_concat, hierSwitch, jsOrZero]
  · intro qre a b
    refine ⟨?_, ?_, ?_⟩ <;>
      simp [getMetricValue, List.getLast?_concat, deviceSwitch, jsOrZero]
  · intro metric hd cd h1 h2 h3
    exact getMetricValue_unrecognized metric hd cd h1 h2 h3

/-- Witness for C7 at concrete inputs. -/
theorem C7_witness :
    WidgetRenderer ⟨"L1", "w", "MetricsCard", none⟩ none none none =
      Rendered.metricsCard "0.00" "Metric" "l/min" ∧
    getMetricValue (some "xyz") (some ⟨[⟨some 5, some 6, some 7⟩]⟩) none = 0 :=
  ⟨C7_metric_defaults.1 ⟨"L1", "w", "MetricsCard", none⟩ none none none rfl (Or.inl rfl),
   C7_metric_defaults.2.2.2.2.2.2 (some "xyz") (some ⟨[⟨some 5, some 6, some 7⟩]⟩) none
     (by decide) (by decide) (by decide)⟩

/-- C8: getResponsivePadding and getResponsiveGap are extensionally
equal, both following the table 8 below 150, 12 on 150 to 250, 16 at 250
and above. -/
theorem C8_padding_eq_gap (w : ℚ) :
    getResponsivePadding w = getResponsiveGap w ∧
    (w < 150 → getResponsivePadding w = 8) ∧
    (150 ≤ w → w < 250 → getResponsivePadding w = 12) ∧
    (250 ≤ w → getResponsivePadding w = 16) := by
  unfold getResponsivePadding getResponsiveGap
  split_ifs <;> refine ⟨rfl, ?_, ?_, ?_⟩ <;> intros <;> first | rfl | linarith

/-- Witness for C8 at one concrete width in each tier. -/
theorem C8_witness :
    getResponsivePadding 100 = getResponsiveGap 100 ∧
    getResponsivePadding 100 = 8 ∧
    getResponsivePadding 200 = 12 ∧
    getResponsivePadding 300 = 16 :=
  ⟨(C8_padding_eq_gap 100).1, (C8_padding_eq_gap 100).2.1 (by norm_num),
   (C8_padding_eq_gap 200).2.2.1 (by norm_num) (by norm_num),
   (C8_padding_eq_gap 300).2.2.2 (by norm_num)⟩

/-- C9 counterexample: at width 200 the MetricsCard inline gap is 10
while getResponsiveGap gives 12, so the inline gap expression does not
agree with the shared helper. -/
theorem C9_counterexample :
    (metricsCardInlineGap 200 = 10 ∧ getResponsiveGap 200 = 12) ∧
    metricsCardInlineGap 200 ≠ getResponsiveGap 200 := by
  norm_num [metricsCardInlineGap, getResponsiveGap]

/-- C9 amended: the inline padding expression equals getResponsivePadding
at every width, but the inline gap expression equals getResponsiveGap
only below width 150; at 150 and above the two differ (10 versus 12,
then 12 versus 16). -/
theorem C9_inline_spacing (w : ℚ) :
    metricsCardInlinePadding w = getResponsivePadding w ∧
    (w < 150 → metricsCardInlineGap w = getResponsiveGap w) ∧
    (150 ≤ w → metricsCardInlineGap w ≠ getResponsiveGap w) := by
  unfold metricsCardInlinePadding getResponsivePadding metricsCardInlineGap getResponsiveGap
  split_ifs <;> refine ⟨rfl, ?_, ?_⟩ <;> intros <;> first | rfl | linarith

/-- Witness for the amended C9 at concrete widths. -/
theorem C9_witness :
    metricsCardInlinePadding 100 = getResponsivePadding 100 ∧
    metricsCardInlineGap 100 = getResponsiveGap 100 ∧
    metricsCardInlineGap 300 ≠ getResponsiveGap 300 :=
  ⟨(C9_inline_spacing 100).1, (C9_inline_spacing 100).2.1 (by norm_num),
   (C9_inline_spacing 300).2.2 (by norm_num)⟩

/-- C10: hierarchy data takes strict precedence.  With a non-empty
hierarchy sequence the value is the hierarchy switch applied to its last
sample, the device argument is ignored entirely, and with an absent or
empty hierarchy sequence the device data is consulted identically. -/
theorem C10_hierarchy_precedence (metric : Option String)
    (pre : List HierarchySample) (s : HierarchySample)
    (c1 c2 c : Option DeviceChartData) :
    getMetricValue metric (some ⟨pre ++ [s]⟩) c1 = hierSwitch metric s ∧
    getMetricValue metric (some ⟨pre ++ [s]⟩) c1 =
      getMetricValue metric (some ⟨pre ++ [s]⟩) c2 ∧
    getMetricValue metric (some ⟨[]⟩) c = getMetricValue metric none c := by
  simp [getMetricValue, List.getLast?_concat]

end Dashboard
